import Mathlib

/-!
Verification of the satnogs-unwinder stepped motion controller
(`src/unwind.py`): a shallow embedding of the rotctld protocol client
(`ROTCTLD.set_azel`, `ROTCTLD.get_azel`) and of the `__main__` homing
loop, with theorems settling the specification's claims.

Modelling conventions:
* Python floats are modelled as rationals (`ℚ`); the claims under study
  concern control flow, clamping, normalization and comparisons, not
  floating-point rounding.
* Python's float modulo (sign of the divisor) is `qmod`.
* Wall-clock timeouts are modelled by a fuel parameter counting the
  number of loop iterations the timeout admits (one poll, respectively
  one outer step, per unit of fuel).
* A transport response is an `Option String` (`none` models
  `send_command` returning `None` after a `recv` failure).
* Wire formatting ("P %3.1f %2.1f") is abstracted to the pair of field
  values handed to the formatter, `set_azel_command`.
* Python's builtin `float` parser is abstracted as a parameter
  `parse : String → Option ℚ` (`none` models a `ValueError`).
-/

/-- Python float modulo with positive divisor, as used by
`azimuth % 360.0` and `_az % 360.0` in `unwind.py`: the remainder
`a - b * ⌊a / b⌋`, which lies in `[0, b)` for `b > 0`. -/
def qmod (a b : ℚ) : ℚ := a - b * ((⌊a / b⌋ : ℤ) : ℚ)

/-- The success token looked for in the response to a position command
(`unwind.py` line 103). -/
def successMarker : String := "RPRT 0"

/-- Whether a character list starts with a given pattern. -/
def listStartsWith : List Char → List Char → Bool
  | _, [] => true
  | [], _ :: _ => false
  | a :: as, b :: bs => a == b && listStartsWith as bs

/-- Whether a character list contains a pattern as a contiguous
sublist. -/
def listContainsSub : List Char → List Char → Bool
  | [], pat => pat.isEmpty
  | a :: as, pat => listStartsWith (a :: as) pat || listContainsSub as pat

/-- Substring test modelling Python's `in` operator on strings. -/
def strContains (s pat : String) : Bool := listContainsSub s.toList pat.toList

/-- Exceptions that `ROTCTLD.set_azel` can raise: the `TypeError` from
evaluating `"RPRT 0" not in None` when the transport returned no
response (line 103), the "No communication with rotator." exception
(line 122), and the "Movement Timeout!" exception (line 134). -/
inductive SetAzelExn
  | typeError
  | commLost
  | moveTimeout
deriving DecidableEq

/-- Outcome of one `ROTCTLD.set_azel` call: a returned boolean or a
raised exception. -/
inductive SetAzelResult
  | ret (b : Bool)
  | exn (e : SetAzelExn)
deriving DecidableEq

/-- The two numeric fields of the wire command `"P %3.1f %2.1f"` built
by `set_azel` (`unwind.py` lines 88-98): elevation clamped to
`[0, 90]`, azimuth reduced modulo 360 only when strictly above 360. -/
def set_azel_command (az el : ℚ) : ℚ × ℚ :=
  (if az > 360 then qmod az 360 else az,
   if el > 90 then (90 : ℚ) else if el < 0 then 0 else el)

/-- The arrival test of the polling loop (`unwind.py` line 127): the
polled azimuth is reduced modulo 360 and compared against the commanded
(already normalized) azimuth; elevation is compared raw. -/
def withinB (taz tel thr : ℚ) (p : ℚ × ℚ) : Bool :=
  decide (|taz - qmod p.1 360| < thr ∧ |tel - p.2| < thr)

/-- The blocking wait loop of `set_azel` (`unwind.py` lines 112-134).
`polls` is the stream of `get_azel` results (`none` = unparseable
position, lines 121-122); `fuel` is the number of polls the
`movement_timeout` admits. Exhausting the fuel raises
"Movement Timeout!" (line 134); a failed poll raises
"No communication with rotator." at once (line 122); a poll within the
movement threshold of the commanded position returns `True`
(lines 127-129). -/
def blockWait (taz tel thr : ℚ) (polls : ℕ → Option (ℚ × ℚ)) : ℕ → SetAzelResult
  | 0 => .exn .moveTimeout
  | fuel + 1 =>
    match polls 0 with
    | none => .exn .commLost
    | some p =>
      if withinB taz tel thr p then .ret true
      else blockWait taz tel thr (fun k => polls (k + 1)) fuel

/-- `ROTCTLD.set_azel` (`unwind.py` lines 86-134): sanity-check the
inputs (`set_azel_command`), send the command, inspect the response for
the success token — a `None` response raises a `TypeError`, since
Python evaluates `"RPRT 0" not in None` (line 103); a response without
the token returns `False`; otherwise a non-blocking call returns `True`
immediately and a blocking call enters the polling loop. -/
def set_azel (az el : ℚ) (blocking : Bool) (response : Option String)
    (polls : ℕ → Option (ℚ × ℚ)) (fuel : ℕ) (thr : ℚ) : SetAzelResult :=
  match response with
  | none => .exn .typeError
  | some r =>
    if strContains r successMarker then
      if blocking then
        blockWait (set_azel_command az el).1 (set_azel_command az el).2 thr polls fuel
      else .ret true
    else .ret false

/-- Newline separator used by `get_azel`'s `response.split('\n')`. -/
def nlStr : String := "\n"

/-- `ROTCTLD.get_azel` (`unwind.py` lines 138-151): split the response
on newlines, parse fields 0 and 1 as floats, return the pair; the bare
`except` turns every failure (`None` response, missing second line,
unparseable field) into the `(None, None)` outcome, modelled as
`none`. `parse` abstracts Python's builtin `float`. -/
def get_azel (parse : String → Option ℚ) (response : Option String) :
    Option (ℚ × ℚ) :=
  match response with
  | none => none
  | some s =>
    match (s.splitOn nlStr)[0]? with
    | none => none
    | some l0 =>
      match parse l0 with
      | none => none
      | some az =>
        match (s.splitOn nlStr)[1]? with
        | none => none
        | some l1 =>
          match parse l1 with
          | none => none
          | some el => some (az, el)

/-- The step computation of the homing loop (`unwind.py` lines
302-315): move clockwise by `step` clamped down to the target when
below it, anticlockwise by `step` clamped up to the target when above
it. When the current azimuth equals the target neither branch runs, so
the Python local `_new_az` keeps whatever value it had — `prev` models
that local: `none` means it is still unbound and line 317 would raise
a `NameError`. -/
def compute_step (az homeAz step : ℚ) (prev : Option ℚ) : Option ℚ :=
  if az < homeAz then
    some (if az + step > homeAz then homeAz else az + step)
  else if az > homeAz then
    some (if az - step < homeAz then homeAz else az - step)
  else prev

/-- A position command issued to the rotator: the arguments of one
`set_azel` call made by the homing loop, with its blocking flag. -/
structure Cmd where
  az : ℚ
  el : ℚ
  blocking : Bool
deriving DecidableEq

/-- An exception escaping the homing loop uncaught (skipping
`_rot.close()` on line 335): the `NameError` from line 317 when
`_new_az` is unbound, or an exception raised by the final non-blocking
`set_azel` call on line 299, which is outside any `try`. -/
inductive CrashError
  | nameErrorNewAz
  | finalCmd (e : SetAzelExn)
deriving DecidableEq

/-- How the homing session of `unwind.py` (`__main__`, lines 287-336)
ends. -/
inductive SessOutcome
  | done
  | commLost
  | stepFailed
  | rejected
  | timedOut
  | crashed (e : CrashError)
deriving DecidableEq

/-- The transport's behaviour over one session: the result of the
`i`-th outer `get_azel` query (line 289), the response to the `i`-th
position command, and the inner poll stream of the `i`-th (blocking)
position command. Since every loop iteration that continues issues
exactly one command, command indices coincide with iteration
indices. -/
structure Env where
  queries : ℕ → Option (ℚ × ℚ)
  responses : ℕ → Option String
  polls : ℕ → ℕ → Option (ℚ × ℚ)

/-- The session's configuration: target position, movement threshold,
azimuth step size (command-line arguments, lines 240-244) and the poll
fuel of each blocking call. -/
structure Config where
  homeAz : ℚ
  homeEl : ℚ
  thr : ℚ
  step : ℚ
  stepFuel : ℕ

/-- Result of a session: its outcome, the position commands issued in
order, and whether `_rot.close()` (line 335) was reached. -/
structure SessionResult where
  outcome : SessOutcome
  cmds : List Cmd
  closed : Bool
deriving DecidableEq

/-- The homing loop of `unwind.py` (`__main__`, lines 287-331), one
constructor case per exit path: `fuel` counts the iterations the
overall homing timeout admits (line 287); a failed query breaks with
`commLost` (lines 292-294); the raw-difference arrival check (line
296) issues one final non-blocking command to the exact target and
breaks (lines 296-300) — an exception from that call escapes uncaught;
otherwise the step computation runs (lines 302-315), raising a
`NameError` when the azimuth matches and `_new_az` was never bound
(line 317); the stepped azimuth is reduced modulo 360 (line 317) and
commanded blocking (line 321) — a caught exception (line 322) or a
`False` result (line 330) breaks, success continues the loop. -/
def sessionLoop (cfg : Config) (env : Env) :
    ℕ → Option ℚ → ℕ → SessOutcome × List Cmd
  | _, _, 0 => (.timedOut, [])
  | i, prevAz, fuel + 1 =>
    match env.queries i with
    | none => (.commLost, [])
    | some (az, el) =>
      if |cfg.homeAz - az| < cfg.thr ∧ |cfg.homeEl - el| < cfg.thr then
        match set_azel cfg.homeAz cfg.homeEl false (env.responses i)
            (env.polls i) cfg.stepFuel cfg.thr with
        | .exn e => (.crashed (.finalCmd e), [⟨cfg.homeAz, cfg.homeEl, false⟩])
        | .ret _ => (.done, [⟨cfg.homeAz, cfg.homeEl, false⟩])
      else
        match compute_step az cfg.homeAz cfg.step prevAz with
        | none => (.crashed .nameErrorNewAz, [])
        | some na =>
          match set_azel (qmod na 360) cfg.homeEl true (env.responses i)
              (env.polls i) cfg.stepFuel cfg.thr with
          | .exn _ => (.stepFailed, [⟨qmod na 360, cfg.homeEl, true⟩])
          | .ret false => (.rejected, [⟨qmod na 360, cfg.homeEl, true⟩])
          | .ret true =>
            let r := sessionLoop cfg env (i + 1) (some (qmod na 360)) fuel
            (r.1, ⟨qmod na 360, cfg.homeEl, true⟩ :: r.2)

/-- A whole session (`unwind.py` lines 282-336): run the homing loop;
`_rot.close()` (line 335) is reached exactly when no exception escaped
the loop uncaught. -/
def session (cfg : Config) (env : Env) (fuel : ℕ) : SessionResult :=
  match sessionLoop cfg env 0 none fuel with
  | (.crashed e, cs) => ⟨.crashed e, cs, false⟩
  | (o, cs) => ⟨o, cs, true⟩

/-! ## Helper lemmas about the float modulo -/

theorem qmod_eq_mul_fract (a b : ℚ) (hb : b ≠ 0) :
    qmod a b = b * Int.fract (a / b) := by
  unfold qmod Int.fract
  field_simp

theorem qmod_nonneg (a b : ℚ) (hb : 0 < b) : 0 ≤ qmod a b := by
  rw [qmod_eq_mul_fract a b hb.ne']
  exact mul_nonneg hb.le (Int.fract_nonneg _)

theorem qmod_lt (a b : ℚ) (hb : 0 < b) : qmod a b < b := by
  rw [qmod_eq_mul_fract a b hb.ne']
  exact mul_lt_of_lt_one_right hb (Int.fract_lt_one _)

/-! ## Claims about the wire command fields (C5, C6, C10) -/

/-- Claim C6: for every azimuth `a` with `0 ≤ a < 360` and every
elevation `e`, the wire command built by `set_azel` carries the
azimuth field `a` unmodified and the elevation field clamped to
`[0, 90]`. -/
theorem c6_wire_command (a e : ℚ) (h0 : 0 ≤ a) (h1 : a < 360) :
    (set_azel_command a e).1 = a ∧
    (set_azel_command a e).2 = min 90 (max 0 e) := by
  constructor
  · unfold set_azel_command
    simp only
    rw [if_neg (by linarith)]
  · unfold set_azel_command
    simp only
    split_ifs with he1 he2
    · rw [max_eq_right (by linarith), min_eq_left (by linarith)]
    · rw [max_eq_left (by linarith), min_eq_right (by linarith)]
    · rw [max_eq_right (by linarith), min_eq_right (by linarith)]

/-- Witness for C6 at the concrete input `a = 45`, `e = 100`. -/
theorem c6_wire_command_witness :
    (0 ≤ (45 : ℚ) ∧ (45 : ℚ) < 360) ∧
    ((set_azel_command 45 100).1 = 45 ∧
     (set_azel_command 45 100).2 = min 90 (max 0 100)) :=
  ⟨⟨by norm_num, by norm_num⟩, c6_wire_command 45 100 (by norm_num) (by norm_num)⟩

/-- Claim C10: a negative azimuth is not normalized at the command
boundary: the wire azimuth field equals the given azimuth verbatim,
because the normalization condition on line 94 of `unwind.py` only
fires for azimuths strictly above 360. -/
theorem c10_negative_azimuth (a e : ℚ) (h : a < 0) :
    (set_azel_command a e).1 = a := by
  unfold set_azel_command
  simp only
  rw [if_neg (by linarith)]

/-- Witness for C10 at the concrete input `a = -10`, `e = 5`. -/
theorem c10_negative_azimuth_witness :
    ((-10 : ℚ) < 0) ∧ (set_azel_command (-10) 5).1 = -10 :=
  ⟨by norm_num, c10_negative_azimuth (-10) 5 (by norm_num)⟩

/-- Counterexample to claim C5 as stated: at azimuth exactly 360 the
command is *not* equivalent to commanding `360 mod 360 = 0`, because
the normalization condition (`azimuth > 360.0`, line 94) is strict:
the wire command carries azimuth field 360, not 0. -/
theorem c5_counterexample :
    (360 : ℚ) ≥ 360 ∧
    set_azel_command 360 0 ≠ set_azel_command (qmod 360 360) 0 := by
  constructor
  · norm_num
  · norm_num [set_azel_command, qmod]

/-- Claim C5 amended: for every azimuth strictly greater than 360 (the
claim said `≥ 360`, which fails at exactly 360) and every elevation,
commanding `(a, e)` is equivalent to commanding `(a mod 360, e)`: the
wire command and the result of the call are identical. -/
theorem c5_amended_mod_equiv (a e : ℚ) (h : 360 < a) (blocking : Bool)
    (response : Option String) (polls : ℕ → Option (ℚ × ℚ)) (fuel : ℕ)
    (thr : ℚ) :
    set_azel_command a e = set_azel_command (qmod a 360) e ∧
    set_azel a e blocking response polls fuel thr =
      set_azel (qmod a 360) e blocking response polls fuel thr := by
  have hcmd : set_azel_command a e = set_azel_command (qmod a 360) e := by
    unfold set_azel_command
    have h1 : ¬ qmod a 360 > 360 := by
      have := qmod_lt a 360 (by norm_num)
      linarith
    rw [if_pos (by linarith), if_neg h1]
  refine ⟨hcmd, ?_⟩
  unfold set_azel
  rw [hcmd]

/-- Witness for the amended C5 at the concrete input `a = 450`,
`e = 10`. -/
theorem c5_amended_mod_equiv_witness :
    (360 : ℚ) < 450 ∧
    (set_azel_command 450 10 = set_azel_command (qmod 450 360) 10 ∧
     set_azel 450 10 false none (fun _ => none) 0 5 =
       set_azel (qmod 450 360) 10 false none (fun _ => none) 0 5) :=
  ⟨by norm_num,
   c5_amended_mod_equiv 450 10 (by norm_num) false none (fun _ => none) 0 5⟩

/-! ## Claim about the step computation (C1) -/

/-- Claim C1: in one stepping iteration with a nonnegative configured
step size, the intermediate azimuth is `current + step` clamped down
to the target when `current < target`, and `current - step` clamped up
to the target when `current > target`; hence the magnitude of the
computed azimuth delta never exceeds the step size and, when the
remaining distance is at most the step size (the final step), the
delta equals the remaining distance exactly. -/
theorem c1_step_bound (az homeAz step : ℚ) (prev : Option ℚ)
    (hstep : 0 ≤ step) :
    (az < homeAz →
      compute_step az homeAz step prev = some (min (az + step) homeAz) ∧
      ∀ na, compute_step az homeAz step prev = some na →
        |na - az| ≤ step ∧ (|homeAz - az| ≤ step → |na - az| = |homeAz - az|)) ∧
    (homeAz < az →
      compute_step az homeAz step prev = some (max (az - step) homeAz) ∧
      ∀ na, compute_step az homeAz step prev = some na →
        |na - az| ≤ step ∧ (|homeAz - az| ≤ step → |na - az| = |homeAz - az|)) := by
  constructor
  · intro hlt
    have habs : |homeAz - az| = homeAz - az := abs_of_nonneg (by linarith)
    have hcs : compute_step az homeAz step prev = some (min (az + step) homeAz) := by
      unfold compute_step
      rw [if_pos hlt]
      by_cases hov : az + step > homeAz
      · rw [if_pos hov, min_eq_right hov.le]
      · rw [if_neg hov, min_eq_left (le_of_not_lt hov)]
    refine ⟨hcs, ?_⟩
    intro na hna
    rw [hcs] at hna
    injection hna with hna
    subst hna
    constructor
    · by_cases hov : homeAz ≤ az + step
      · rw [min_eq_right hov, habs]
        linarith
      · rw [min_eq_left (by linarith), abs_of_nonneg (by linarith)]
        linarith
    · intro hrem
      rw [habs] at hrem
      rw [min_eq_right (by linarith)]
  · intro hgt
    have habs : |homeAz - az| = az - homeAz := by
      rw [abs_of_nonpos (by linarith), neg_sub]
    have hcs : compute_step az homeAz step prev = some (max (az - step) homeAz) := by
      unfold compute_step
      rw [if_neg (by linarith), if_pos hgt]
      by_cases hun : az - step < homeAz
      · rw [if_pos hun, max_eq_right hun.le]
      · rw [if_neg hun, max_eq_left (le_of_not_lt hun)]
    refine ⟨hcs, ?_⟩
    intro na hna
    rw [hcs] at hna
    injection hna with hna
    subst hna
    constructor
    · by_cases hun : az - step ≤ homeAz
      · rw [max_eq_right hun, abs_of_nonpos (by linarith), neg_sub]
        linarith
      · rw [max_eq_left (by linarith), abs_of_nonpos (by linarith), neg_sub]
        linarith
    · intro hrem
      rw [habs] at hrem
      rw [max_eq_right (by linarith)]

/-- Witness for C1 at the concrete input `az = 0`, `homeAz = 90`,
`step = 30`, `prev = none`. -/
theorem c1_step_bound_witness :
    (0 : ℚ) ≤ 30 ∧
    (((0 : ℚ) < 90 →
      compute_step 0 90 30 none = some (min ((0 : ℚ) + 30) 90) ∧
      ∀ na, compute_step 0 90 30 none = some na →
        |na - 0| ≤ 30 ∧ (|(90 : ℚ) - 0| ≤ 30 → |na - 0| = |(90 : ℚ) - 0|)) ∧
    ((90 : ℚ) < 0 →
      compute_step 0 90 30 none = some (max ((0 : ℚ) - 30) 90) ∧
      ∀ na, compute_step 0 90 30 none = some na →
        |na - 0| ≤ 30 ∧ (|(90 : ℚ) - 0| ≤ 30 → |na - 0| = |(90 : ℚ) - 0|))) :=
  ⟨by norm_num, c1_step_bound 0 90 30 none (by norm_num)⟩

/-! ## Characterization of the blocking wait loop (towards C2) -/

theorem blockWait_ret_true_iff (taz tel thr : ℚ) :
    ∀ (fuel : ℕ) (polls : ℕ → Option (ℚ × ℚ)),
      blockWait taz tel thr polls fuel = .ret true ↔
        ∃ i, i < fuel ∧
          (∃ p, polls i = some p ∧ withinB taz tel thr p = true) ∧
          ∀ j, j < i → ∃ p, polls j = some p ∧ withinB taz tel thr p = false := by
  intro fuel
  induction fuel with
  | zero =>
    intro polls
    constructor
    · intro h
      simp [blockWait] at h
    · rintro ⟨i, hi, -⟩
      exact absurd hi (Nat.not_lt_zero i)
  | succ n ih =>
    intro polls
    cases hp : polls 0 with
    | none =>
      constructor
      · intro h
        simp [blockWait, hp] at h
      · rintro ⟨i, hi, ⟨p, hpi, hw⟩, hall⟩
        cases i with
        | zero => rw [hp] at hpi; cases hpi
        | succ k =>
          obtain ⟨p0, hp0, -⟩ := hall 0 (Nat.succ_pos k)
          rw [hp] at hp0; cases hp0
    | some p =>
      cases hw : withinB taz tel thr p with
      | true =>
        have hstep : blockWait taz tel thr polls (n + 1) = .ret true := by
          simp [blockWait, hp, hw]
        rw [hstep]
        constructor
        · intro h
          exact ⟨0, Nat.succ_pos n, ⟨p, hp, hw⟩,
            fun j hj => absurd hj (Nat.not_lt_zero j)⟩
        · intro h
          rfl
      | false =>
        have hstep : blockWait taz tel thr polls (n + 1) =
            blockWait taz tel thr (fun k => polls (k + 1)) n := by
          simp [blockWait, hp, hw]
        rw [hstep, ih]
        constructor
        · rintro ⟨i, hi, hhit, hall⟩
          refine ⟨i + 1, Nat.succ_lt_succ hi, hhit, ?_⟩
          intro j hj
          cases j with
          | zero => exact ⟨p, hp, hw⟩
          | succ k => exact hall k (Nat.lt_of_succ_lt_succ hj)
        · rintro ⟨i, hi, hhit, hall⟩
          cases i with
          | zero =>
            obtain ⟨q, hq, hwq⟩ := hhit
            rw [hp] at hq
            injection hq with hq
            subst hq
            rw [hw] at hwq
            cases hwq
          | succ k =>
            exact ⟨k, Nat.lt_of_succ_lt_succ hi, hhit,
              fun j hj => hall (j + 1) (Nat.succ_lt_succ hj)⟩

theorem blockWait_commLost_iff (taz tel thr : ℚ) :
    ∀ (fuel : ℕ) (polls : ℕ → Option (ℚ × ℚ)),
      blockWait taz tel thr polls fuel = .exn .commLost ↔
        ∃ i, i < fuel ∧ polls i = none ∧
          ∀ j, j < i → ∃ p, polls j = some p ∧ withinB taz tel thr p = false := by
  intro fuel
  induction fuel with
  | zero =>
    intro polls
    constructor
    · intro h
      simp [blockWait] at h
    · rintro ⟨i, hi, -⟩
      exact absurd hi (Nat.not_lt_zero i)
  | succ n ih =>
    intro polls
    cases hp : polls 0 with
    | none =>
      have hstep : blockWait taz tel thr polls (n + 1) = .exn .commLost := by
        simp [blockWait, hp]
      rw [hstep]
      constructor
      · intro h
        exact ⟨0, Nat.succ_pos n, hp, fun j hj => absurd hj (Nat.not_lt_zero j)⟩
      · intro h
        rfl
    | some p =>
      cases hw : withinB taz tel thr p with
      | true =>
        constructor
        · intro h
          simp [blockWait, hp, hw] at h
        · rintro ⟨i, hi, hnone, hall⟩
          cases i with
          | zero => rw [hp] at hnone; cases hnone
          | succ k =>
            obtain ⟨q, hq, hwq⟩ := hall 0 (Nat.succ_pos k)
            rw [hp] at hq
            injection hq with hq
            subst hq
            rw [hw] at hwq
            cases hwq
      | false =>
        have hstep : blockWait taz tel thr polls (n + 1) =
            blockWait taz tel thr (fun k => polls (k + 1)) n := by
          simp [blockWait, hp, hw]
        rw [hstep, ih]
        constructor
        · rintro ⟨i, hi, hnone, hall⟩
          refine ⟨i + 1, Nat.succ_lt_succ hi, hnone, ?_⟩
          intro j hj
          cases j with
          | zero => exact ⟨p, hp, hw⟩
          | succ k => exact hall k (Nat.lt_of_succ_lt_succ hj)
        · rintro ⟨i, hi, hnone, hall⟩
          cases i with
          | zero => rw [hp] at hnone; cases hnone
          | succ k =>
            exact ⟨k, Nat.lt_of_succ_lt_succ hi, hnone,
              fun j hj => hall (j + 1) (Nat.succ_lt_succ hj)⟩

theorem blockWait_moveTimeout_iff (taz tel thr : ℚ) :
    ∀ (fuel : ℕ) (polls : ℕ → Option (ℚ × ℚ)),
      blockWait taz tel thr polls fuel = .exn .moveTimeout ↔
        ∀ i, i < fuel → ∃ p, polls i = some p ∧ withinB taz tel thr p = false := by
  intro fuel
  induction fuel with
  | zero =>
    intro polls
    constructor
    · intro h i hi
      exact absurd hi (Nat.not_lt_zero i)
    · intro h
      rfl
  | succ n ih =>
    intro polls
    cases hp : polls 0 with
    | none =>
      constructor
      · intro h
        simp [blockWait, hp] at h
      · intro h
        obtain ⟨q, hq, -⟩ := h 0 (Nat.succ_pos n)
        rw [hp] at hq
        cases hq
    | some p =>
      cases hw : withinB taz tel thr p with
      | true =>
        constructor
        · intro h
          simp [blockWait, hp, hw] at h
        · intro h
          obtain ⟨q, hq, hwq⟩ := h 0 (Nat.succ_pos n)
          rw [hp] at hq
          injection hq with hq
          subst hq
          rw [hw] at hwq
          cases hwq
      | false =>
        have hstep : blockWait taz tel thr polls (n + 1) =
            blockWait taz tel thr (fun k => polls (k + 1)) n := by
          simp [blockWait, hp, hw]
        rw [hstep, ih]
        constructor
        · intro h i hi
          cases i with
          | zero => exact ⟨p, hp, hw⟩
          | succ k => exact h k (Nat.lt_of_succ_lt_succ hi)
        · intro h i hi
          exact h (i + 1) (Nat.succ_lt_succ hi)

/-- Claim C2: for a blocking `set_azel` call whose command was
accepted (response contains the success token), the call returns
success exactly when some poll within the movement-timeout budget
reports both axes within the movement threshold of the commanded
target (azimuth compared modulo 360) with all earlier polls readable
and not yet within threshold; it fails with the movement-timeout
exception exactly when every admitted poll is readable and outside the
threshold; and it fails with the communication-lost exception exactly
when some poll is unreadable and every earlier poll was readable and
outside the threshold (so no poll follows a failed one). -/
theorem c2_blocking_move (az el thr : ℚ) (r : String)
    (polls : ℕ → Option (ℚ × ℚ)) (fuel : ℕ)
    (hacc : strContains r successMarker = true) :
    (set_azel az el true (some r) polls fuel thr = .ret true ↔
      ∃ i, i < fuel ∧
        (∃ p, polls i = some p ∧
          withinB (set_azel_command az el).1 (set_azel_command az el).2 thr p = true) ∧
        ∀ j, j < i → ∃ p, polls j = some p ∧
          withinB (set_azel_command az el).1 (set_azel_command az el).2 thr p = false) ∧
    (set_azel az el true (some r) polls fuel thr = .exn .commLost ↔
      ∃ i, i < fuel ∧ polls i = none ∧
        ∀ j, j < i → ∃ p, polls j = some p ∧
          withinB (set_azel_command az el).1 (set_azel_command az el).2 thr p = false) ∧
    (set_azel az el true (some r) polls fuel thr = .exn .moveTimeout ↔
      ∀ i, i < fuel → ∃ p, polls i = some p ∧
        withinB (set_azel_command az el).1 (set_azel_command az el).2 thr p = false) := by
  have hs : set_azel az el true (some r) polls fuel thr =
      blockWait (set_azel_command az el).1 (set_azel_command az el).2 thr polls fuel := by
    simp [set_azel, hacc]
  rw [hs]
  exact ⟨blockWait_ret_true_iff _ _ _ fuel polls,
    blockWait_commLost_iff _ _ _ fuel polls,
    blockWait_moveTimeout_iff _ _ _ fuel polls⟩

/-- Witness for C2: a blocking call whose first poll is already at the
commanded position returns success. -/
theorem c2_blocking_move_witness :
    strContains successMarker successMarker = true ∧
    set_azel 10 20 true (some successMarker) (fun _ => some (10, 20)) 1 5 = .ret true :=
  ⟨by decide,
   ((c2_blocking_move 10 20 5 successMarker (fun _ => some (10, 20)) 1 (by decide)).1).mpr
     ⟨0, Nat.zero_lt_one,
      ⟨(10, 20), rfl, by norm_num [withinB, set_azel_command, qmod]⟩,
      fun j hj => absurd hj (Nat.not_lt_zero j)⟩⟩

/-! ## Claims about the position query and the rejected command (C8, C7) -/

/-- Claim C8: the position query is total over every transport
response — it never raises. It returns the parsed pair exactly on a
response whose first two newline-separated fields parse as floats, and
the unavailable outcome (`none`, modelling `(None, None)`) on a
missing response, a missing second line, or an unparseable field. -/
theorem c8_get_azel_total (parse : String → Option ℚ)
    (response : Option String) :
    (get_azel parse response = none ∨
      ∃ az el, get_azel parse response = some (az, el)) ∧
    (response = none → get_azel parse response = none) ∧
    (∀ s l0 l1 az el, response = some s →
      (s.splitOn nlStr)[0]? = some l0 → (s.splitOn nlStr)[1]? = some l1 →
      parse l0 = some az → parse l1 = some el →
      get_azel parse response = some (az, el)) ∧
    (∀ s, response = some s →
      ((s.splitOn nlStr)[1]? = none ∨
       (∃ l0, (s.splitOn nlStr)[0]? = some l0 ∧ parse l0 = none) ∨
       (∃ l1, (s.splitOn nlStr)[1]? = some l1 ∧ parse l1 = none)) →
      get_azel parse response = none) := by
  refine ⟨?_, ?_, ?_, ?_⟩
  · cases h : get_azel parse response with
    | none => exact Or.inl rfl
    | some p =>
      obtain ⟨a, b⟩ := p
      exact Or.inr ⟨a, b, rfl⟩
  · intro h
    subst h
    rfl
  · intro s l0 l1 az el hresp h0 h1 hp0 hp1
    subst hresp
    simp only [get_azel, h0, hp0, h1, hp1]
  · intro s hresp hfail
    subst hresp
    cases h0 : (s.splitOn nlStr)[0]? with
    | none => simp only [get_azel, h0]
    | some l0 =>
      cases hp0 : parse l0 with
      | none => simp only [get_azel, h0, hp0]
      | some az =>
        cases h1 : (s.splitOn nlStr)[1]? with
        | none => simp only [get_azel, h0, hp0, h1]
        | some l1 =>
          cases hp1 : parse l1 with
          | none => simp only [get_azel, h0, hp0, h1, hp1]
          | some el =>
            exfalso
            rcases hfail with hf | ⟨m0, hm0, hpm0⟩ | ⟨m1, hm1, hpm1⟩
            · rw [h1] at hf
              cases hf
            · rw [h0] at hm0
              injection hm0 with hm0
              subst hm0
              rw [hp0] at hpm0
              cases hpm0
            · rw [h1] at hm1
              injection hm1 with hm1
              subst hm1
              rw [hp1] at hpm1
              cases hpm1

/-- Witness for C8: a missing transport response yields the
unavailable outcome. -/
theorem c8_get_azel_total_witness :
    get_azel (fun _ => some 7) none = none :=
  (c8_get_azel_total (fun _ => some 7) none).2.1 rfl

/-- Claim C7 at its failing input: when the transport returns no
response to the position command, `set_azel` does not return the
failure value `False` — evaluating `"RPRT 0" not in None` raises a
`TypeError` instead. The result does not depend on the poll stream,
the poll budget or the blocking flag: no blocking wait and no position
poll happens. -/
theorem c7_none_response_raises (polls : ℕ → Option (ℚ × ℚ)) (fuel : ℕ)
    (blocking : Bool) :
    set_azel 10 20 blocking none polls fuel 5 = .exn .typeError :=
  rfl

/-! ## Session-level claims (C3, C4, C9) -/

/-- Configuration of the C3 failing scenario: target `(0, 0)`,
movement threshold 10, azimuth step 90. -/
def c3Cfg : Config := ⟨0, 0, 10, 90, 5⟩

/-- Environment of the C3 failing scenario: every position query
reports `(0, 0)` — already within the arrival threshold of the target
— and the transport returns no response to the final non-blocking
position command. -/
def c3Env : Env := ⟨fun _ => some (0, 0), fun _ => none, fun _ _ => none⟩

/-- Claim C3 at its failing input: the first query already satisfies
the arrival threshold, and the session does issue exactly one
non-blocking command to the exact target and never steps — but when
the transport response to that final command is absent, the session
does not terminate in the Done state: the `TypeError` from the
response inspection (line 103) escapes uncaught (line 299 is outside
any `try`), and the connection is not closed. -/
theorem c3_arrival_crash :
    session c3Cfg c3Env 3 =
      ⟨.crashed (.finalCmd .typeError), [⟨0, 0, false⟩], false⟩ := by
  norm_num [session, sessionLoop, set_azel, set_azel_command, compute_step,
    qmod, withinB, c3Cfg, c3Env]

/-- Configuration of the C4 failing scenario: target azimuth 0 with
target elevation 45, movement threshold 10, azimuth step 90. -/
def c4Cfg : Config := ⟨0, 45, 10, 90, 5⟩

/-- Environment of the C4 failing scenario: the rotator reports
position `(0, 0)` — azimuth exactly equal to the target azimuth,
elevation 45 degrees away — and would accept any command. -/
def c4Env : Env :=
  ⟨fun _ => some (0, 0), fun _ => some successMarker, fun _ _ => none⟩

/-- Claim C4 at its failing input: when the current azimuth exactly
equals the target azimuth while the elevation still differs, the step
computation is *not* well-defined: neither direction branch assigns
`_new_az`, so line 317 raises a `NameError` on the first iteration; no
command at all is issued (in particular none holding the azimuth and
commanding the target elevation) and the connection is not closed. -/
theorem c4_equal_azimuth_crash :
    session c4Cfg c4Env 3 = ⟨.crashed .nameErrorNewAz, [], false⟩ := by
  norm_num [session, sessionLoop, set_azel, set_azel_command, compute_step,
    qmod, withinB, c4Cfg, c4Env]

/-- Configuration of the C9 failing scenario: target `(180, 90)`,
movement threshold 10, azimuth step 90. -/
def c9Cfg : Config := ⟨180, 90, 10, 90, 5⟩

/-- Environment of the C9 failing scenario: the rotator reports
position `(180, 0)` — azimuth at the target, elevation 90 degrees away
— and would accept any command. -/
def c9Env : Env :=
  ⟨fun _ => some (180, 0), fun _ => some successMarker, fun _ _ => none⟩

/-- Claim C9 at its failing input: an error raised during the stepping
loop (the `NameError` from the unbound `_new_az`, line 317) propagates
out of the `while` loop uncaught, so `_rot.close()` (line 335) is never
invoked even though the connection was established: the session ends
with `closed = false`. -/
theorem c9_close_skipped :
    session c9Cfg c9Env 4 = ⟨.crashed .nameErrorNewAz, [], false⟩ ∧
    (session c9Cfg c9Env 4).closed = false := by
  constructor
  · norm_num [session, sessionLoop, set_azel, set_azel_command, compute_step,
      qmod, withinB, c9Cfg, c9Env]
  · norm_num [session, sessionLoop, set_azel, set_azel_command, compute_step,
      qmod, withinB, c9Cfg, c9Env]
